import Mathlib

/-!
Shallow embedding of the live trading-decision engine
(backend services: TechnicalIndicators, MarketDataStream, CircuitBreaker,
StrategyManager, TradeExecutor, PortfolioMonitor / ConditionMonitor).

Conventions of the embedding:
* JavaScript numbers are modelled as rationals (`ℚ`); the only place where
  non-finite values matter (`Number.isFinite` in `validateQuote`) uses an
  explicit `JNum` type with `nan` / `posInf` / `negInf` constructors.
* Timestamps are integers in milliseconds (`Date.getTime()`).
* `x.toFixed(n)` followed by `parseFloat` is modelled by decimal rounding
  (`roundTo`), half away from zero on positive values.
* Methods that throw are modelled with `Except String`; side effects
  (notifications, timers, event emissions) are modelled as explicit effect
  lists returned alongside the new state.
-/

/-- Decimal rounding: models `parseFloat(x.toFixed(n))` for the positive
prices this system works with. -/
def roundTo (n : ℕ) (x : ℚ) : ℚ :=
  (⌊x * (10 : ℚ) ^ n + 1/2⌋ : ℤ) / (10 : ℚ) ^ n

/-! ## TechnicalIndicators (technicalIndicators.ts) -/

/-- One OHLCV sample of the per-symbol price history (interface `PriceData`).
`timestamp` is in ms; the TS field `open` is renamed `openPrice`
(`open` is a Lean keyword). -/
structure PriceData where
  timestamp : ℤ
  openPrice : ℚ
  high : ℚ
  low : ℚ
  close : ℚ
  volume : ℚ
  deriving Repr, DecidableEq, Inhabited

/-- True range of a candle `cur` given the previous candle `prev`:
`max(high − low, |high − prev.close|, |low − prev.close|)`
(body of the loop in `calculateATR`). -/
def trueRange (prev cur : PriceData) : ℚ :=
  max (cur.high - cur.low) (max |cur.high - prev.close| |cur.low - prev.close|)

/-- The list of true ranges over consecutive samples, in order
(the `trueRanges` array built by `calculateATR`). -/
def trueRanges (history : List PriceData) : List ℚ :=
  (history.zip history.tail).map fun pc => trueRange pc.1 pc.2

/-- Models `TechnicalIndicators.calculateATR(symbol, period)`: throws when the
symbol has fewer than `period + 1` samples; otherwise averages the last
`period` true ranges (`trueRanges.slice(-period)` summed and divided by
`period`). -/
def calculateATR (history : List PriceData) (period : ℕ) : Except String ℚ :=
  if history.length < period + 1 then
    .error "Insufficient data for ATR calculation"
  else
    let trs := trueRanges history
    let recentTR := trs.drop (trs.length - period)
    .ok (recentTR.sum / period)

/-- Stated from the claim's words, to be compared with `calculateATR`:
the arithmetic mean of the last 14 true ranges. -/
def atrSpec14 (history : List PriceData) : ℚ :=
  let trs := trueRanges history
  let last14 := trs.drop (trs.length - 14)
  last14.sum / last14.length

/-- Models `timeframe` string to hours: `'1h' → 1`, `'4h' → 4`, `'1d' → 24`,
default `1` (the `switch` in `getPercentageMove`). -/
def timeframeHours (timeframe : String) : ℤ :=
  if timeframe = "1h" then 1
  else if timeframe = "4h" then 4
  else if timeframe = "1d" then 24
  else 1

/-- Models `TechnicalIndicators.getPercentageMove(symbol, timeframe)` at wall-clock
time `now` (ms). Throws on an empty history; otherwise compares the latest
close against the first sample lying within 60 s of `now − timeframe`,
falling back to the oldest sample when no sample is that close. -/
def getPercentageMove (history : List PriceData) (timeframe : String)
    (now : ℤ) : Except String ℚ :=
  match history.getLast? with
  | none => .error "No price data"
  | some lastSample =>
    let currentPrice := lastSample.close
    let compareTime := now - timeframeHours timeframe * 3600000
    let compareData := history.find? fun p => |p.timestamp - compareTime| < 60000
    let comparePrice :=
      match compareData with
      | none => (history.headI).close
      | some p => p.close
    .ok (((currentPrice - comparePrice) / comparePrice) * 100)

/-- Models `TechnicalIndicators.getCurrentPrice(symbol)`: last close, `null` when
the symbol has no history. -/
def getCurrentPrice (history : List PriceData) : Option ℚ :=
  match history.getLast? with
  | none => none
  | some p => some p.close

/-- Models `TechnicalIndicators.getSpread(symbol)`: `((high − low) / close) * 100`
of the latest sample, `null` when the symbol has no history. -/
def getSpread (history : List PriceData) : Option ℚ :=
  match history.getLast? with
  | none => none
  | some p => some (((p.high - p.low) / p.close) * 100)

/-- Models `TechnicalIndicators.isDataFresh(symbol, maxAgeSeconds)` at time `now`:
age of the latest sample in seconds is at most `maxAgeSeconds`. -/
def isDataFresh (history : List PriceData) (maxAgeSeconds : ℚ) (now : ℤ) : Bool :=
  match history.getLast? with
  | none => false
  | some p => ((now - p.timestamp : ℤ) : ℚ) / 1000 ≤ maxAgeSeconds

/-- The per-symbol price-history table (`priceHistory : Map<string, PriceData[]>`);
a missing symbol behaves as an empty history in every consumer. -/
def lookupHistory (tbl : List (String × List PriceData)) (symbol : String) :
    List PriceData :=
  match tbl.find? fun e => e.1 = symbol with
  | none => []
  | some e => e.2

/-! ## MarketDataStream (marketDataStream.ts, both variants) -/

/-- A JavaScript number as it can reach `validateQuote` after `parseFloat`:
NaN, ±Infinity, or a finite value. -/
inductive JNum where
  | nan : JNum
  | posInf : JNum
  | negInf : JNum
  | fin : ℚ → JNum
  deriving Repr, DecidableEq

/-- JS comparison `x <= 0` (false on NaN, false on +Infinity,
true on −Infinity). -/
def JNum.leZero : JNum → Bool
  | .nan => false
  | .posInf => false
  | .negInf => true
  | .fin q => q ≤ 0

/-- Models `Number.isFinite(x)`. -/
def JNum.isFiniteJ : JNum → Bool
  | .fin _ => true
  | _ => false

/-- interface `MarketQuote` (fields used by validation and storage). -/
structure MarketQuote where
  symbol : String
  price : JNum
  bid : JNum
  ask : JNum
  volume : ℚ
  timestamp : ℤ
  deriving Repr, DecidableEq

/-- Models `MarketDataStream.validateQuote` — WebSocket variant (part_013 lines
525–543). Rejects non-positive price/bid/ask and a non-finite price; the
bid/ask-spread comparison against 10% only emits `logger.warn` and does
not affect the returned value. -/
def validateQuote (quote : MarketQuote) : Bool :=
  if quote.price.leZero || quote.bid.leZero || quote.ask.leZero then
    false
  else if !quote.price.isFiniteJ then
    false
  else
    -- `const spread = (ask - bid) / price; if (spread > 0.1) logger.warn(...)`
    -- logging only: the function still falls through to `return true`
    true

/-- The logged wide-spread condition of the WebSocket `validateQuote`:
`(ask − bid) / price > 0.1` (computed on the finite values). -/
def wideSpreadWarned (quote : MarketQuote) : Bool :=
  match quote.ask, quote.bid, quote.price with
  | .fin a, .fin b, .fin p => (a - b) / p > 1/10
  | _, _, _ => false

/-- Models `MarketDataStream.validateQuote` — polling variant (part_013 lines
180–192): identical checks, with no spread code at all. -/
def validateQuotePolling (quote : MarketQuote) : Bool :=
  if quote.price.leZero || quote.bid.leZero || quote.ask.leZero then
    false
  else if !quote.price.isFiniteJ then
    false
  else
    true

/-- The quote table plus the indicator price-history table touched by the
ticker handler. -/
structure StreamState where
  lastQuotes : List (String × MarketQuote)
  priceHistory : List (String × List PriceData)
  deriving Repr, DecidableEq

/-- Append one sample to a symbol's history (`addPriceData` without the
1000-cap branch, which is irrelevant below the cap). -/
def addPriceData (tbl : List (String × List PriceData)) (symbol : String)
    (d : PriceData) : List (String × List PriceData) :=
  match tbl.find? fun e => e.1 = symbol with
  | none => tbl ++ [(symbol, [d])]
  | some _ => tbl.map fun e => if e.1 = symbol then (e.1, e.2 ++ [d]) else e

/-- Store/replace the latest quote for a symbol (`lastQuotes.set`). -/
def setQuote (tbl : List (String × MarketQuote)) (q : MarketQuote) :
    List (String × MarketQuote) :=
  match tbl.find? fun e => e.1 = q.symbol with
  | none => tbl ++ [(q.symbol, q)]
  | some _ => tbl.map fun e => if e.1 = q.symbol then (e.1, q) else e

/-- The ticker-processing path (part_013 lines 470–523): a quote failing
`validateQuote` is dropped; a passing quote is stored in the quote table
and appended to the indicator history (a flat candle at `price`). -/
def processTicker (s : StreamState) (q : MarketQuote) : StreamState :=
  if !validateQuote q then
    s
  else
    let priceQ := match q.price with | .fin p => p | _ => 0
    { lastQuotes := setQuote s.lastQuotes q
      priceHistory := addPriceData s.priceHistory q.symbol
        { timestamp := q.timestamp, openPrice := priceQ, high := priceQ,
          low := priceQ, close := priceQ, volume := q.volume } }

/-! ## CircuitBreaker (circuitBreaker.ts) -/

/-- Models `CircuitBreakerState`: the tripped flag, rolling windows and
per-strategy consecutive-stop counters. -/
structure CBState where
  isTripped : Bool
  failedTrades : List ℤ
  systemErrors : List ℤ
  consecutiveStops : List (String × ℕ)
  deriving Repr, DecidableEq

/-- Observable side effects of the circuit breaker, in emission order. -/
inductive CBEffect where
  | stopMonitoring : CBEffect
  | pauseStrategy : String → CBEffect
  | criticalAlert : String → String → CBEffect
  | emitTripped : String → CBEffect
  deriving Repr, DecidableEq

/-- Models `CircuitBreaker.isActive()`. -/
def CBState.isActive (s : CBState) : Bool :=
  !s.isTripped

/-- Models `CircuitBreaker.trip(reason, details)` with `activeIds` the ids of the
currently active strategies (`strategyManager.getActiveStrategies()`).
Returns immediately when already tripped; otherwise sets the flag and, in
order, stops the ConditionMonitor, pauses each active strategy, sends one
critical alert, and emits `tripped`. -/
def CBState.trip (s : CBState) (activeIds : List String)
    (reason details : String) : CBState × List CBEffect :=
  if s.isTripped then
    (s, [])
  else
    ({ s with isTripped := true },
      [CBEffect.stopMonitoring]
        ++ activeIds.map CBEffect.pauseStrategy
        ++ [CBEffect.criticalAlert reason details, CBEffect.emitTripped reason])

/-! ## StrategyManager (strategyManager.ts) -/

/-- Strategy lifecycle status. -/
inductive SStatus where
  | pending | active | paused | archived
  deriving Repr, DecidableEq

/-- Stop-loss configuration (`ExitCondition.stop_loss`). -/
inductive SLType where
  | percentage | atr | fixed
  deriving Repr, DecidableEq

structure StopLossCfg where
  slType : SLType
  value : ℚ
  is_trailing : Bool
  deriving Repr, DecidableEq

structure TakeProfitCfg where
  tpType : SLType
  value : ℚ
  deriving Repr, DecidableEq

/-- The `{value, unit}` form of a max-hold constraint. -/
structure MaxHoldPeriod where
  value : ℚ
  unit : String
  deriving Repr, DecidableEq

structure ExitConditionCfg where
  stop_loss : StopLossCfg
  take_profit : TakeProfitCfg
  max_hold_days : Option ℚ
  max_hold_period : Option MaxHoldPeriod
  deriving Repr, DecidableEq

/-- Direction of a percentage-move entry condition. -/
inductive MoveDirection where
  | up | down | any
  deriving Repr, DecidableEq

/-- Models `EntryCondition` fields consumed by `checkPercentageMove` (the TS type
is a loose object with optional fields). -/
structure EntryConditionData where
  condType : String
  primary_asset : Option String
  threshold : Option ℚ
  direction : Option MoveDirection
  timeframe : Option String
  deriving Repr, DecidableEq

/-- Models `ParsedStrategy` fields consumed by the services modelled here. -/
structure ParsedStrategy where
  strategy_id : String
  strategy_name : String
  status : SStatus
  stop_loss_percent : Option ℚ
  take_profit_percent : Option ℚ
  position_size : Option ℚ
  required_assets : List String
  entry_conditions : EntryConditionData
  exit_conditions : ExitConditionCfg
  deriving Repr, DecidableEq

/-- The `approveStrategy` / `editStrategy` modifications argument; `none`
models a JS `undefined` sneaking past the type checker. -/
structure StrategyMods where
  stop_loss_percent : Option ℚ
  take_profit_percent : Option ℚ
  position_size : Option ℚ
  deriving Repr, DecidableEq

/-- Models `StrategyManager` in-memory state. -/
structure SMState where
  strategies : List (String × ParsedStrategy)
  activeIds : List String
  deriving Repr, DecidableEq

/-- JS guard `!modifications.stop_loss_percent || modifications.stop_loss_percent <= 0`:
true for `undefined`, `0`, and non-positive numbers. -/
def invalidStopMod : Option ℚ → Bool
  | none => true
  | some q => q = 0 || q ≤ 0

/-- Models `StrategyManager.approveStrategy(strategyId, modifications)`.
Returns the untouched state and an error when the strategy is unknown or
the stop-loss modification is unset/non-positive; otherwise activates the
strategy with the modified parameters. -/
def approveStrategy (st : SMState) (strategyId : String)
    (mods : StrategyMods) : SMState × Except String ParsedStrategy :=
  match (st.strategies.find? fun e => e.1 = strategyId) with
  | none => (st, .error "Strategy not found")
  | some entry =>
    if invalidStopMod mods.stop_loss_percent then
      (st, .error "Stop loss is required and must be greater than 0")
    else
      let approved : ParsedStrategy :=
        { entry.2 with
          stop_loss_percent := mods.stop_loss_percent
          take_profit_percent := mods.take_profit_percent
          position_size := some ((mods.position_size).getD 100)
          status := SStatus.active }
      ({ strategies := st.strategies.map fun e =>
            if e.1 = strategyId then (e.1, approved) else e
         activeIds := st.activeIds ++ [strategyId] },
       .ok approved)

/-- Status of the strategy stored under `strategyId` (for stating that a
failed approval leaves the stored status unchanged). -/
def storedStatus (st : SMState) (strategyId : String) : Option SStatus :=
  match st.strategies.find? fun e => e.1 = strategyId with
  | none => none
  | some e => some e.2.status

/-! ## Position model (types/index.ts `Position`) -/

inductive PStatus where
  | openP | closedP
  deriving Repr, DecidableEq, BEq

inductive PSide where
  | buy | sell
  deriving Repr, DecidableEq, BEq

structure Position where
  id : String
  strategy_id : String
  asset : String
  side : PSide
  entry_price : ℚ
  current_price : ℚ
  quantity : ℚ
  trailing_stop_price : ℚ
  take_profit_price : ℚ
  status : PStatus
  entry_time : ℤ
  exit_time : Option ℤ
  exit_price : Option ℚ
  pnl : Option ℚ
  deriving Repr, DecidableEq

/-! ## PortfolioMonitor accessors used by the executor
(part_011: `getOpenPositions`, `getDailyPnL`) -/

/-- Models `PortfolioMonitor.getOpenPositions()`. -/
def getOpenPositions (positions : List Position) : List Position :=
  positions.filter fun p => p.status == PStatus.openP

/-- Models `PortfolioMonitor.getDailyPnL()`: unrealized P&L summed over open
positions, minus the recorded daily start value. -/
def getDailyPnL (positions : List Position) (dailyStartValue : ℚ) : ℚ :=
  let totalPnl := (getOpenPositions positions).foldl
    (fun acc p => acc + (p.current_price * p.quantity - p.entry_price * p.quantity)) 0
  totalPnl - dailyStartValue

/-! ## TradeExecutor (tradeExecutor.ts) -/

/-- interface `TradeOrder` (fields the executor fills in). -/
structure TradeOrder where
  side : String
  product_id : String
  orderType : String
  price : Option ℚ
  size : Option ℚ
  deriving Repr, DecidableEq

/-- interface `TradeResult` (webhook response). -/
structure TradeResult where
  success : Bool
  order_id : Option String
  message : Option String
  filled_size : Option ℚ
  filled_price : Option ℚ
  deriving Repr, DecidableEq

/-- Per-asset loop of `validatePreTrade`: freshness (≤ 5 s) then spread
(`if (spread && spread > 0.5)`); the first failing asset raises. -/
def assetChecks (priceTbl : List (String × List PriceData)) (now : ℤ) :
    List String → Except String Unit
  | [] => .ok ()
  | asset :: rest =>
    if !(isDataFresh (lookupHistory priceTbl asset) 5 now) then
      .error ("Stale market data for " ++ asset ++ " - trade blocked")
    else
      match getSpread (lookupHistory priceTbl asset) with
      | some s =>
        -- `spread && spread > 0.5`: a null or zero spread is falsy
        if s > 1/2 then .error ("High spread detected for " ++ asset ++ " - trade blocked")
        else assetChecks priceTbl now rest
      | none => assetChecks priceTbl now rest

/-- Models `TradeExecutor.validatePreTrade(strategy)` (tradeExecutor.ts lines
183–215): stop-loss set, data fresh and spread tight for every required
asset, no open position for the strategy, daily loss above the floor.
Note: the function performs no circuit-breaker check. -/
def validatePreTrade (strategy : ParsedStrategy)
    (priceTbl : List (String × List PriceData)) (now : ℤ)
    (positions : List Position) (dailyStartValue : ℚ) : Except String Unit :=
  if invalidStopMod strategy.stop_loss_percent then
    .error "CRITICAL: Stop loss not set - trade blocked"
  else
    match assetChecks priceTbl now strategy.required_assets with
    | .error e => .error e
    | .ok _ =>
      let openPositions := getOpenPositions positions
      let strategyPositions := openPositions.filter fun p =>
        p.strategy_id == strategy.strategy_id
      if strategyPositions.length > 0 then
        .error "Position already open for this strategy"
      else if getDailyPnL positions dailyStartValue < -2000 then
        .error "Daily loss limit exceeded - trading halted"
      else
        .ok ()

/-- Models `TradeExecutor.calculateStopLoss(entryPrice, cfg, side, asset)`:
percentage offset, or 14-period ATR × multiplier with a 2% fallback when
ATR has insufficient history; result rounded via `toFixed(2)`. -/
def calculateStopLoss (entryPrice : ℚ) (cfg : StopLossCfg) (side : PSide)
    (history : List PriceData) : ℚ :=
  let stopPrice :=
    match cfg.slType with
    | SLType.percentage =>
      let percentage := cfg.value / 100
      if side == PSide.buy then entryPrice * (1 - percentage)
      else entryPrice * (1 + percentage)
    | SLType.atr =>
      match calculateATR history 14 with
      | .ok atr =>
        let atrMultiplier := if cfg.value = 0 then 2 else cfg.value
        if side == PSide.buy then entryPrice - atr * atrMultiplier
        else entryPrice + atr * atrMultiplier
      | .error _ =>
        if side == PSide.buy then entryPrice * (98/100) else entryPrice * (102/100)
    | SLType.fixed =>
      if side == PSide.buy then entryPrice * (98/100) else entryPrice * (102/100)
  roundTo 2 stopPrice

/-- Models `TradeExecutor.calculateTakeProfit`: as `calculateStopLoss` with the
opposite offsets, default multiplier 3 and a 5% fallback. -/
def calculateTakeProfit (entryPrice : ℚ) (cfg : TakeProfitCfg) (side : PSide)
    (history : List PriceData) : ℚ :=
  let targetPrice :=
    match cfg.tpType with
    | SLType.percentage =>
      let percentage := cfg.value / 100
      if side == PSide.buy then entryPrice * (1 + percentage)
      else entryPrice * (1 - percentage)
    | SLType.atr =>
      match calculateATR history 14 with
      | .ok atr =>
        let atrMultiplier := if cfg.value = 0 then 3 else cfg.value
        if side == PSide.buy then entryPrice + atr * atrMultiplier
        else entryPrice - atr * atrMultiplier
      | .error _ =>
        if side == PSide.buy then entryPrice * (105/100) else entryPrice * (95/100)
    | SLType.fixed =>
      if side == PSide.buy then entryPrice * (105/100) else entryPrice * (95/100)
  roundTo 2 targetPrice

deriving instance DecidableEq for Except

/-- What one `executeTrade` call did: the orders handed to
`executeWithRetries`, the position record created on a filled entry, and
the thrown/normal outcome. -/
structure ExecResult where
  ordersSubmitted : List TradeOrder
  positionCreated : Option Position
  outcome : Except String Unit
  deriving Repr, DecidableEq

/-- Models `TradeExecutor.executeTrade(strategy, signal, reason)`.
`orderFate` abstracts the network outcome of `executeWithRetries`
(`.error` = all three attempts failed / unsuccessful response). The
function validates first, reads the current price, computes stop and
target, submits the order, and creates the position on a filled entry.
It consults no circuit-breaker state. -/
def executeTrade (strategy : ParsedStrategy)
    (priceTbl : List (String × List PriceData)) (now : ℤ)
    (positions : List Position) (dailyStartValue : ℚ)
    (orderFate : Except String TradeResult) (newId : String)
    (signal : String) : ExecResult :=
  match validatePreTrade strategy priceTbl now positions dailyStartValue with
  | .error e => { ordersSubmitted := [], positionCreated := none, outcome := .error e }
  | .ok _ =>
    let asset := strategy.required_assets.headI
    match getCurrentPrice (lookupHistory priceTbl asset) with
    | none =>
      { ordersSubmitted := [], positionCreated := none,
        outcome := .error "No current price available" }
    | some currentPrice =>
      let positionSize := match strategy.position_size with
        | some ps => if ps = 0 then 100 else ps
        | none => 100
      let quantity := roundTo 8 (positionSize / currentPrice)
      let stopLossPrice := calculateStopLoss currentPrice
        strategy.exit_conditions.stop_loss PSide.buy (lookupHistory priceTbl asset)
      let takeProfitPrice := calculateTakeProfit currentPrice
        strategy.exit_conditions.take_profit PSide.buy (lookupHistory priceTbl asset)
      let order : TradeOrder :=
        { side := if signal == "enter" then "buy" else "sell",
          product_id := asset, orderType := "limit",
          price := some (roundTo 2 currentPrice), size := some quantity }
      match orderFate with
      | .error e =>
        { ordersSubmitted := [order], positionCreated := none,
          outcome := .error ("Trade failed after 3 attempts: " ++ e) }
      | .ok result =>
        if !result.success then
          { ordersSubmitted := [order], positionCreated := none,
            outcome := .error "Trade execution failed" }
        else if signal == "enter" then
          let position : Position :=
            { id := newId, strategy_id := strategy.strategy_id, asset := asset,
              side := PSide.buy,
              entry_price := result.filled_price.getD currentPrice,
              current_price := currentPrice,
              quantity := result.filled_size.getD quantity,
              trailing_stop_price := stopLossPrice,
              take_profit_price := takeProfitPrice,
              status := PStatus.openP, entry_time := now,
              exit_time := none, exit_price := none, pnl := none }
          { ordersSubmitted := [order], positionCreated := some position,
            outcome := .ok () }
        else
          { ordersSubmitted := [order], positionCreated := none, outcome := .ok () }

/-! ## Bootstrap entry-signal handler (backend index.ts) -/

/-- Models `CircuitBreaker.checkDailyLoss()`: trips on an absolute daily loss
beyond $2000 or a percentage loss beyond 2%, returning whether it
tripped. -/
def checkDailyLoss (cb : CBState) (activeIds : List String)
    (daily_pnl total_value : ℚ) : CBState × List CBEffect × Bool :=
  if daily_pnl < -2000 then
    let (cb', effs) := cb.trip activeIds "Daily loss limit exceeded" "daily_pnl"
    (cb', effs, true)
  else if (daily_pnl / total_value) * 100 < -2 then
    let (cb', effs) := cb.trip activeIds "Daily loss percentage exceeded" "loss_percent"
    (cb', effs, true)
  else
    (cb, [], false)

/-- The `entry_signal` handler registered by the bootstrap (index.ts):
skip when the circuit breaker is inactive, skip when `checkDailyLoss`
trips, otherwise invoke `TradeExecutor.executeTrade`. `none` in the last
component means `executeTrade` was never invoked, so no order was
submitted. -/
def handleEntrySignal (cb : CBState) (activeIds : List String)
    (daily_pnl total_value : ℚ) (strategy : ParsedStrategy)
    (priceTbl : List (String × List PriceData)) (now : ℤ)
    (positions : List Position) (dailyStartValue : ℚ)
    (orderFate : Except String TradeResult) (newId : String) :
    CBState × List CBEffect × Option ExecResult :=
  if !cb.isActive then
    (cb, [], none)
  else
    let (cb', effs, tripped) := checkDailyLoss cb activeIds daily_pnl total_value
    if tripped then
      (cb', effs, none)
    else
      (cb', effs, some (executeTrade strategy priceTbl now positions
        dailyStartValue orderFate newId "enter"))

/-! ## closePosition / emergencyCloseAll (tradeExecutor.ts lines 359–470) -/

/-- The external outcome of one `closePosition` attempt:
no current price, order submission failed after its retries, or a fill at
the given exit price (`result.filled_price || currentPrice`). -/
inductive CloseFate where
  | noPrice : CloseFate
  | orderFail : String → CloseFate
  | filled : ℚ → CloseFate
  deriving Repr, DecidableEq

def CloseFate.isFailure : CloseFate → Bool
  | .noPrice => true
  | .orderFail _ => true
  | .filled _ => false

/-- Side effects of a `closePosition` call. -/
inductive CloseEffect where
  | alertCloseFailure : String → CloseEffect
  | retryScheduled : ℕ → CloseEffect
  | positionSaved : CloseEffect
  | tradeNotification : CloseEffect
  deriving Repr, DecidableEq

/-- Whether the JS promise settled fulfilled or rejected. -/
inductive SettledOutcome where
  | fulfilled | rejectedO
  deriving Repr, DecidableEq, BEq

structure CloseResult where
  position : Position
  effects : List CloseEffect
  succeeded : Bool
  promise : SettledOutcome
  deriving Repr, DecidableEq

/-- Models `TradeExecutor.closePosition(position, reason)` as one attempt.
On success the position is closed, saved and notified. On any failure the
`catch` block sends a CRITICAL alert, schedules another attempt with
`setTimeout(..., 5000)` and returns normally — it does not rethrow, so
the promise fulfills on both paths. -/
def closePositionOnce (pos : Position) (now : ℤ) (fate : CloseFate) : CloseResult :=
  match fate with
  | .noPrice =>
    { position := pos,
      effects := [CloseEffect.alertCloseFailure pos.asset, CloseEffect.retryScheduled 5000],
      succeeded := false, promise := SettledOutcome.fulfilled }
  | .orderFail _ =>
    { position := pos,
      effects := [CloseEffect.alertCloseFailure pos.asset, CloseEffect.retryScheduled 5000],
      succeeded := false, promise := SettledOutcome.fulfilled }
  | .filled exitPrice =>
    { position :=
        { pos with
          status := PStatus.closedP
          exit_time := some now
          exit_price := some exitPrice
          pnl := some ((exitPrice - pos.entry_price) * pos.quantity) }
      effects := [CloseEffect.positionSaved, CloseEffect.tradeNotification]
      succeeded := true
      promise := SettledOutcome.fulfilled }

/-- The retry chain driven by the 5-second `setTimeout`: run attempts in
order until one succeeds; an exhausted fate list leaves the loop between
a scheduled retry and its execution. -/
def closeLoop (pos : Position) (now : ℤ) : List CloseFate → Position × List CloseEffect
  | [] => (pos, [])
  | fate :: rest =>
    let r := closePositionOnce pos now fate
    if r.succeeded then
      (r.position, r.effects)
    else
      let (p', effs') := closeLoop r.position now rest
      (p', r.effects ++ effs')

structure EmergencySummary where
  total_positions : ℕ
  failures : ℕ
  deriving Repr, DecidableEq

/-- Models `TradeExecutor.emergencyCloseAll(reason)`: one close attempt per open
position (`openPositions.map(p => closePosition(p, ...).catch(e => e))`,
then `Promise.allSettled`), counting `failures` as the settled results
whose status is `rejected`, and always emitting the summary notification
carrying `{total_positions, failures}`. Returns the number of close
attempts made and the emitted summary. -/
def emergencyCloseAll (positions : List Position) (now : ℤ)
    (fate : Position → CloseFate) : ℕ × EmergencySummary :=
  let openPositions := getOpenPositions positions
  let settled := openPositions.map fun p =>
    -- the trailing `.catch(error => ... return error)` turns any rejection
    -- into a fulfillment; `closePositionOnce` already always fulfills
    (closePositionOnce p now (fate p)).promise
  let failures := (settled.filter fun r => r == SettledOutcome.rejectedO).length
  (openPositions.length,
   { total_positions := openPositions.length, failures := failures })

/-! ## PortfolioMonitor.checkPosition (part_011 lines 72–178) -/

/-- Models `PortfolioMonitor.calculateTrailingStop(currentPrice, entryPrice, cfg,
asset)`: a percentage or ATR distance below the current price, with a 2%
fallback when ATR has insufficient history (the `entryPrice` argument is
unused by the source body as well). -/
def calculateTrailingStop (currentPrice _entryPrice : ℚ) (cfg : StopLossCfg)
    (history : List PriceData) : ℚ :=
  let stopDistance :=
    match cfg.slType with
    | SLType.percentage => currentPrice * (cfg.value / 100)
    | SLType.atr =>
      match calculateATR history 14 with
      | .ok atr => atr * cfg.value
      | .error _ => currentPrice * (2/100)
    | SLType.fixed => currentPrice * (2/100)
  roundTo 2 (currentPrice - stopDistance)

/-- Everything one `checkPosition` tick reads from its collaborators:
`technicalIndicators.getCurrentPrice`, `strategyManager.getStrategy`, the
ATR history of the asset, and the wall clock. -/
structure TickInput where
  currentPrice : Option ℚ
  strategy : Option ParsedStrategy
  history : List PriceData
  now : ℤ
  deriving Repr, DecidableEq

/-- JS truthiness of a number. -/
def jsTruthy (q : ℚ) : Bool := q ≠ 0

/-- Models `PortfolioMonitor.checkPosition(position)` for one tick: refresh the
current price; ratchet the trailing stop only when the position is a long
above its entry, the strategy's stop-loss is trailing, and the recomputed
stop is strictly greater than the stored one; then evaluate the exit
triggers (stop, target, max hold — the last one to fire wins the reason
string) without touching the stop price. -/
def checkPositionStep (pos : Position) (t : TickInput) :
    Position × Option String :=
  match t.currentPrice with
  | none => (pos, none)
  | some currentPrice =>
    let pos1 := { pos with current_price := currentPrice }
    let pos2 :=
      if pos.side == PSide.buy && decide (currentPrice > pos.entry_price) then
        match t.strategy with
        | some strat =>
          if strat.exit_conditions.stop_loss.is_trailing then
            let newStopPrice := calculateTrailingStop currentPrice
              pos.entry_price strat.exit_conditions.stop_loss t.history
            if newStopPrice > pos1.trailing_stop_price then
              { pos1 with trailing_stop_price := newStopPrice }
            else pos1
          else pos1
        | none => pos1
      else pos1
    let r1 : Option String :=
      if currentPrice ≤ pos2.trailing_stop_price then some "Stop loss triggered" else none
    let r2 : Option String :=
      if currentPrice ≥ pos2.take_profit_price then some "Take profit triggered" else r1
    let r3 : Option String :=
      match t.strategy with
      | none => r2
      | some strat =>
        let holdTime := t.now - pos.entry_time
        let maxHoldMs : Option ℚ :=
          match strat.exit_conditions.max_hold_days with
          | some d =>
            if jsTruthy d then some (d * 86400000)
            else
              match strat.exit_conditions.max_hold_period with
              | some mhp => some (mhp.value *
                  (if mhp.unit == "days" then 86400000 else 3600000))
              | none => none
          | none =>
            match strat.exit_conditions.max_hold_period with
            | some mhp => some (mhp.value *
                (if mhp.unit == "days" then 86400000 else 3600000))
            | none => none
        match maxHoldMs with
        | some m =>
          if jsTruthy m && decide ((holdTime : ℚ) > m) then
            some "Max hold period exceeded"
          else r2
        | none => r2
    (pos2, r3)

/-- A sequence of `checkPosition` ticks applied to one position (the state
the 5-second monitoring interval threads through). -/
def runTicks (pos : Position) (ticks : List TickInput) : Position :=
  ticks.foldl (fun p t => (checkPositionStep p t).1) pos

/-! ## ConditionMonitor.checkPercentageMove (part_012 lines 139–176) -/

/-- JS `str || dflt` on an optional string: `undefined` and the empty
string both fall back. -/
def jsStrOr (o : Option String) (dflt : String) : String :=
  match o with
  | none => dflt
  | some s => if s = "" then dflt else s

/-- Models `ConditionMonitor.checkPercentageMove(condition)`: false when
`primary_asset` is falsy or `threshold` undefined, false when
`getPercentageMove` throws, else the move compared per direction
(`up`: move > threshold, `down`: move < −threshold, `any` and the
default: |move| > threshold). -/
def checkPercentageMove (condition : EntryConditionData)
    (priceTbl : List (String × List PriceData)) (now : ℤ) : Bool :=
  match condition.primary_asset, condition.threshold with
  | some asset, some threshold =>
    if asset = "" then false  -- `!condition.primary_asset` rejects '' too
    else
      match getPercentageMove (lookupHistory priceTbl asset)
          (jsStrOr condition.timeframe "1h") now with
      | .error _ => false
      | .ok percentMove =>
        match condition.direction with
        | some MoveDirection.up => percentMove > threshold
        | some MoveDirection.down => percentMove < -threshold
        | some MoveDirection.any => |percentMove| > threshold
        | none => |percentMove| > threshold
  | _, _ => false

/-! ## Concrete fixtures for counterexamples and witnesses -/

/-- A 15-sample flat-range history (true range 2 everywhere). -/
def atrSample : PriceData :=
  { timestamp := 0, openPrice := 9, high := 10, low := 8, close := 9, volume := 1 }

def atrHist15 : List PriceData := List.replicate 15 atrSample

/-- Two samples an hour's lookback cannot reach: timestamps 0 and 1000 ms,
queried at `now = 10^10` ms with timeframe `1h`. -/
def pmHist : List PriceData :=
  [{ timestamp := 0, openPrice := 100, high := 100, low := 100, close := 100, volume := 1 },
   { timestamp := 1000, openPrice := 103, high := 103, low := 103, close := 103, volume := 1 }]

/-- A finite, positive quote whose spread is 20% of price. -/
def wideQuote : MarketQuote :=
  { symbol := "BTC-USD", price := JNum.fin 100, bid := JNum.fin 90,
    ask := JNum.fin 110, volume := 1, timestamp := 0 }

/-- A tripped breaker state. -/
def cbTripped : CBState :=
  { isTripped := true, failedTrades := [], systemErrors := [], consecutiveStops := [] }

/-- An approved-looking strategy with a valid 2% stop that passes every
`validatePreTrade` check in the fixture environment below. -/
def c1Strategy : ParsedStrategy :=
  { strategy_id := "s1", strategy_name := "BTC momentum", status := SStatus.active,
    stop_loss_percent := some 2, take_profit_percent := some 5,
    position_size := some 100, required_assets := ["BTC-USD"],
    entry_conditions :=
      { condType := "percentage_move", primary_asset := some "BTC-USD",
        threshold := some 2, direction := some MoveDirection.up,
        timeframe := some "1h" },
    exit_conditions :=
      { stop_loss := { slType := SLType.percentage, value := 2, is_trailing := true },
        take_profit := { tpType := SLType.percentage, value := 5 },
        max_hold_days := none, max_hold_period := none } }

/-- One fresh flat candle at 100 for BTC-USD (age 1 s at `now = 1000`). -/
def c1Tbl : List (String × List PriceData) :=
  [("BTC-USD",
    [{ timestamp := 0, openPrice := 100, high := 100, low := 100, close := 100, volume := 1 }])]

/-- A webhook fill at 100. -/
def c1Fate : Except String TradeResult :=
  .ok { success := true, order_id := some "o1", message := none,
        filled_size := some 1, filled_price := some 100 }

/-- A strategy store holding one pending strategy under id `s1`. -/
def w4Strategy : ParsedStrategy :=
  { c1Strategy with
    strategy_id := "s1"
    status := SStatus.pending
    stop_loss_percent := some 0 }

def w4State : SMState :=
  { strategies := [("s1", w4Strategy)], activeIds := [] }

/-- Modifications with the stop-loss left unset. -/
def w4Mods : StrategyMods :=
  { stop_loss_percent := none, take_profit_percent := some 5, position_size := some 100 }

/-- Five open positions for the emergency-close scenario. -/
def ecPos (i : String) : Position :=
  { id := i, strategy_id := "strat-" ++ i, asset := "BTC-USD", side := PSide.buy,
    entry_price := 100, current_price := 100, quantity := 1,
    trailing_stop_price := 98, take_profit_price := 105, status := PStatus.openP,
    entry_time := 0, exit_time := none, exit_price := none, pnl := none }

def ecPositions : List Position :=
  [ecPos "p1", ecPos "p2", ecPos "p3", ecPos "p4", ecPos "p5"]

/-- Close attempts for `p1` and `p2` fail; the rest fill at 100. -/
def ecFate (p : Position) : CloseFate :=
  if p.id == "p1" || p.id == "p2" then CloseFate.orderFail "webhook down"
  else CloseFate.filled 100

/-- An open position for the close-retry scenario. -/
def cpPos : Position := ecPos "p9"

/-- The BTC percentage-move scenario: a baseline candle at 100, then ticks
5 s apart whose closes are 100.5, 101.5 and 102.5 (+0.5%, +1.5%, +2.5%). -/
def btcCond : EntryConditionData :=
  { condType := "percentage_move", primary_asset := some "BTC-USD",
    threshold := some 2, direction := some MoveDirection.up, timeframe := some "1h" }

def btcCandle (ts : ℤ) (c : ℚ) : PriceData :=
  { timestamp := ts, openPrice := c, high := c, low := c, close := c, volume := 1 }

def btcTbl0 : List (String × List PriceData) :=
  [("BTC-USD", [btcCandle 0 100, btcCandle 3600000 (201/2)])]

def btcTbl1 : List (String × List PriceData) :=
  [("BTC-USD", [btcCandle 0 100, btcCandle 3600000 (201/2), btcCandle 3605000 (203/2)])]

def btcTbl2 : List (String × List PriceData) :=
  [("BTC-USD", [btcCandle 0 100, btcCandle 3600000 (201/2), btcCandle 3605000 (203/2),
    btcCandle 3610000 (205/2)])]

/-! ## Theorems -/

/-- C7: `calculateATR(symbol, 14)` raises an insufficient-data error
whenever the symbol has fewer than 15 stored samples; with at least 15
samples it returns the arithmetic mean of the last 14 true ranges, each
true range being `max(high − low, |high − prev close|, |low − prev close|)`
(`atrSpec14` states the mean from the claim's words). -/
theorem calculateATR_spec (history : List PriceData) :
    (history.length < 15 → calculateATR history 14 =
      .error "Insufficient data for ATR calculation") ∧
    (15 ≤ history.length → calculateATR history 14 = .ok (atrSpec14 history)) := by
  constructor
  · intro h
    simp [calculateATR, h]
  · intro h
    have hlen : ¬ history.length < 14 + 1 := by omega
    have hTR : (trueRanges history).length = history.length - 1 := by
      simp [trueRanges, List.length_zip, List.length_tail]
    have hdrop : ((trueRanges history).drop ((trueRanges history).length - 14)).length = 14 := by
      simp [List.length_drop, hTR]
      omega
    simp only [calculateATR, hlen, if_false, atrSpec14, hdrop]

/-- C7 witness: a 15-sample flat-range history evaluates to the mean,
and an empty history raises. -/
theorem calculateATR_spec_witness :
    calculateATR atrHist15 14 = .ok (atrSpec14 atrHist15) ∧
    calculateATR [] 14 = .error "Insufficient data for ATR calculation" :=
  ⟨(calculateATR_spec atrHist15).2 (by decide),
   (calculateATR_spec ([] : List PriceData)).1 (by decide)⟩

/-- C10: for a non-empty history in which no stored sample's timestamp
lies within 60 s of the requested lookback time, `getPercentageMove`
silently (as a normal `.ok` result, not an error) falls back to the
oldest stored sample as the comparison price, whatever the actual age of
that sample relative to the requested timeframe. -/
theorem getPercentageMove_oldest_fallback (history : List PriceData)
    (timeframe : String) (now : ℤ) (h1 : history ≠ [])
    (h2 : ∀ p ∈ history,
      ¬(|p.timestamp - (now - timeframeHours timeframe * 3600000)| < 60000)) :
    getPercentageMove history timeframe now =
      .ok ((((history.getLast h1).close - (history.headI).close) /
        (history.headI).close) * 100) := by
  have hl : history.getLast? = some (history.getLast h1) :=
    List.getLast?_eq_getLast history h1
  have hf : (history.find? fun p =>
      |p.timestamp - (now - timeframeHours timeframe * 3600000)| < 60000) = none := by
    rw [List.find?_eq_none]
    intro p hp
    simpa using h2 p hp
  simp [getPercentageMove, hl, hf]

/-- C10 witness: two samples at 0 ms and 1000 ms (closes 100 and 103)
queried with timeframe `1h` at `now = 10^10` ms: the lookback window is
empty and the move is computed against the oldest sample, giving 3%. -/
theorem getPercentageMove_oldest_fallback_witness :
    getPercentageMove pmHist "1h" 10000000000 = .ok 3 := by
  have h := getPercentageMove_oldest_fallback pmHist "1h" 10000000000
    (by decide) (by decide)
  rw [h]
  norm_num [pmHist, List.getLast, List.headI]

/-- C2 counterexample: a finite, positive quote whose bid/ask spread is
20% of price — strictly above the claimed 10% cutoff — still passes
`validateQuote` (and the polling variant), is stored in the quote table
and is propagated to the indicator history by the ticker path. -/
theorem validateQuote_wide_spread_accepted :
    wideSpreadWarned wideQuote = true ∧
    validateQuote wideQuote = true ∧
    validateQuotePolling wideQuote = true ∧
    (processTicker ⟨[], []⟩ wideQuote).lastQuotes = [("BTC-USD", wideQuote)] ∧
    (processTicker ⟨[], []⟩ wideQuote).priceHistory =
      [("BTC-USD",
        [{ timestamp := 0, openPrice := 100, high := 100, low := 100,
           close := 100, volume := 1 }])] := by
  refine ⟨?_, by decide, by decide, ?_, ?_⟩
  · simp [wideSpreadWarned, wideQuote]
    norm_num
  · simp [processTicker, wideQuote, setQuote, addPriceData, validateQuote,
      JNum.leZero, JNum.isFiniteJ]
    norm_num
  · simp [processTicker, wideQuote, setQuote, addPriceData, validateQuote,
      JNum.leZero, JNum.isFiniteJ]
    norm_num

/-- C2 amended: `validateQuote` returns false exactly when price, bid or
ask is `<= 0` in the JS sense or the price is non-finite; the wide-spread
condition is logged only and never causes rejection — both variants agree
on every quote. -/
theorem validateQuote_characterization (q : MarketQuote) :
    validateQuote q =
      (!q.price.leZero && !q.bid.leZero && !q.ask.leZero && q.price.isFiniteJ) ∧
    validateQuotePolling q = validateQuote q := by
  constructor
  · simp only [validateQuote]
    cases hp : q.price.leZero <;> cases hb : q.bid.leZero <;>
      cases ha : q.ask.leZero <;> cases hf : q.price.isFiniteJ <;> simp
  · simp only [validateQuote, validateQuotePolling]

/-- C5: `trip` is idempotent: after any `trip` call the breaker is
tripped, and a further `trip` — with any arguments — leaves the state
identical and performs no side effect, so two consecutive calls emit
exactly the side-effect set of the first; on an already-tripped state a
`trip` call is a complete no-op. -/
theorem trip_idempotent (s : CBState) (as1 as2 : List String)
    (r1 d1 r2 d2 : String) :
    (CBState.trip (s.trip as1 r1 d1).1 as2 r2 d2) = ((s.trip as1 r1 d1).1, []) ∧
    ((s.trip as1 r1 d1).2 ++ (CBState.trip (s.trip as1 r1 d1).1 as2 r2 d2).2 =
      (s.trip as1 r1 d1).2) ∧
    (s.isTripped = true → s.trip as1 r1 d1 = (s, [])) := by
  cases h : s.isTripped <;> simp [CBState.trip, h]

/-- C5 witness: a tripped breaker ignores a further `trip` call. -/
theorem trip_idempotent_witness :
    CBState.trip cbTripped ["s1"] "reason" "details" = (cbTripped, []) :=
  (trip_idempotent cbTripped ["s1"] ["s2"] "reason" "details" "r2" "d2").2.2 rfl

/-- C4: a strategy whose stop-loss value is 0 or unset can never reach
active status through `approveStrategy` — the call errors and the stored
strategies (hence the strategy's status) are untouched — and
`executeTrade` for such a strategy fails its first pre-trade check, so no
order is submitted and no position is created. -/
theorem stop_loss_never_trades (st : SMState) (strategyId : String)
    (mods : StrategyMods) (strategy : ParsedStrategy)
    (priceTbl : List (String × List PriceData)) (now : ℤ)
    (positions : List Position) (dailyStartValue : ℚ)
    (orderFate : Except String TradeResult) (newId signal : String)
    (hmods : invalidStopMod mods.stop_loss_percent = true)
    (hstrat : invalidStopMod strategy.stop_loss_percent = true) :
    (approveStrategy st strategyId mods).1 = st ∧
    (∀ s', (approveStrategy st strategyId mods).2 ≠ .ok s') ∧
    storedStatus (approveStrategy st strategyId mods).1 strategyId =
      storedStatus st strategyId ∧
    (executeTrade strategy priceTbl now positions dailyStartValue
      orderFate newId signal).ordersSubmitted = [] ∧
    (executeTrade strategy priceTbl now positions dailyStartValue
      orderFate newId signal).positionCreated = none ∧
    (executeTrade strategy priceTbl now positions dailyStartValue
      orderFate newId signal).outcome =
      .error "CRITICAL: Stop loss not set - trade blocked" := by
  have happ : approveStrategy st strategyId mods = (st, Except.error
      (match st.strategies.find? fun e => e.1 = strategyId with
       | none => "Strategy not found"
       | some _ => "Stop loss is required and must be greater than 0")) := by
    cases hfind : st.strategies.find? fun e => e.1 = strategyId <;>
      simp [approveStrategy, hfind, hmods]
  have hexec : executeTrade strategy priceTbl now positions dailyStartValue
      orderFate newId signal =
      { ordersSubmitted := [], positionCreated := none,
        outcome := .error "CRITICAL: Stop loss not set - trade blocked" } := by
    simp [executeTrade, validatePreTrade, hstrat]
  refine ⟨?_, ?_, ?_, ?_, ?_, ?_⟩ <;>
    simp [happ, hexec]

/-- C4 witness: approving strategy `s1` with an unset stop-loss leaves the
store untouched, and executing a zero-stop strategy creates no position. -/
theorem stop_loss_never_trades_witness :
    (approveStrategy w4State "s1" w4Mods).1 = w4State ∧
    storedStatus (approveStrategy w4State "s1" w4Mods).1 "s1" =
      some SStatus.pending ∧
    (executeTrade w4Strategy [] 0 [] 0 (Except.error "down") "p1"
      "enter").positionCreated = none := by
  have h := stop_loss_never_trades w4State "s1" w4Mods w4Strategy [] 0 [] 0
    (Except.error "down") "p1" "enter" (by decide) (by decide)
  refine ⟨h.1, ?_, h.2.2.2.2.1⟩
  rw [h.2.2.1]
  decide

/-- One `checkPosition` tick never lowers the trailing stop: every branch
either keeps `trailing_stop_price` or replaces it under the strict guard
`newStopPrice > trailing_stop_price`. -/
theorem checkPositionStep_tsp_mono (pos : Position) (t : TickInput) :
    pos.trailing_stop_price ≤ (checkPositionStep pos t).1.trailing_stop_price := by
  unfold checkPositionStep
  cases t.currentPrice with
  | none => simp
  | some cp =>
    simp only
    by_cases hside : (pos.side == PSide.buy && decide (cp > pos.entry_price)) = true
    · rw [if_pos hside]
      cases t.strategy with
      | none => simp
      | some strat =>
        by_cases htr : strat.exit_conditions.stop_loss.is_trailing = true
        · simp only [htr, if_true]
          by_cases hgt : calculateTrailingStop cp pos.entry_price
              strat.exit_conditions.stop_loss t.history > pos.trailing_stop_price
          · simp only [hgt, if_pos]
            exact le_of_lt hgt
          · simp only [if_neg hgt]
            exact le_refl _
        · simp [htr]
    · rw [if_neg hside]

/-- C3: for any position, strategy lookup, price and history inputs, the
trailing stop is monotonically non-decreasing: one `checkPosition` tick
never lowers `trailing_stop_price`, and neither does any sequence of
ticks (`runTicks`). -/
theorem trailing_stop_monotone (pos : Position) (t : TickInput)
    (ticks : List TickInput) :
    pos.trailing_stop_price ≤ (checkPositionStep pos t).1.trailing_stop_price ∧
    pos.trailing_stop_price ≤ (runTicks pos ticks).trailing_stop_price := by
  refine ⟨checkPositionStep_tsp_mono pos t, ?_⟩
  induction ticks generalizing pos with
  | nil => simp [runTicks]
  | cons t0 ts ih =>
    calc pos.trailing_stop_price
        ≤ (checkPositionStep pos t0).1.trailing_stop_price :=
          checkPositionStep_tsp_mono pos t0
      _ ≤ (runTicks (checkPositionStep pos t0).1 ts).trailing_stop_price :=
          ih (checkPositionStep pos t0).1
    

/-- C9: with a present non-empty `primary_asset`, a defined `threshold`
and a successfully computed move `m`, `checkPercentageMove` returns true
exactly when `m > threshold` for direction `up`, `m < −threshold` for
`down`, and `|m| > threshold` for `any` (and for an absent direction). -/
theorem checkPercentageMove_direction (condition : EntryConditionData)
    (priceTbl : List (String × List PriceData)) (now : ℤ)
    (asset : String) (threshold m : ℚ)
    (ha : condition.primary_asset = some asset) (hne : asset ≠ "")
    (ht : condition.threshold = some threshold)
    (hm : getPercentageMove (lookupHistory priceTbl asset)
      (jsStrOr condition.timeframe "1h") now = .ok m) :
    checkPercentageMove condition priceTbl now =
      (match condition.direction with
       | some MoveDirection.up => decide (m > threshold)
       | some MoveDirection.down => decide (m < -threshold)
       | some MoveDirection.any => decide (|m| > threshold)
       | none => decide (|m| > threshold)) := by
  unfold checkPercentageMove
  rw [ha, ht]
  simp only [hne, if_false, hm]

/-- Concrete move values of the BTC scenario ticks: +0.5%, +1.5%, +2.5%. -/
theorem btcMoves :
    getPercentageMove (lookupHistory btcTbl0 "BTC-USD") (jsStrOr (some "1h") "1h")
      3600000 = .ok (1/2) ∧
    getPercentageMove (lookupHistory btcTbl1 "BTC-USD") (jsStrOr (some "1h") "1h")
      3605000 = .ok (3/2) ∧
    getPercentageMove (lookupHistory btcTbl2 "BTC-USD") (jsStrOr (some "1h") "1h")
      3610000 = .ok (5/2) := by
  refine ⟨?_, ?_, ?_⟩ <;>
  · simp [getPercentageMove, lookupHistory, btcTbl0, btcTbl1, btcTbl2,
      btcCandle, jsStrOr, timeframeHours, List.find?]
    norm_num

/-- C9 witness — the spec's scenario: BTC rising toward +3% within 1h
against `percentage_move{up, 2%, 1h}`; the condition is false at +0.5%
and +1.5% and first fires on the tick where the move (+2.5%) exceeds the
2% threshold. -/
theorem checkPercentageMove_direction_witness :
    checkPercentageMove btcCond btcTbl0 3600000 = false ∧
    checkPercentageMove btcCond btcTbl1 3605000 = false ∧
    checkPercentageMove btcCond btcTbl2 3610000 = true := by
  have h0 := checkPercentageMove_direction btcCond btcTbl0 3600000 "BTC-USD"
    2 (1/2) rfl (by decide) rfl btcMoves.1
  have h1 := checkPercentageMove_direction btcCond btcTbl1 3605000 "BTC-USD"
    2 (3/2) rfl (by decide) rfl btcMoves.2.1
  have h2 := checkPercentageMove_direction btcCond btcTbl2 3610000 "BTC-USD"
    2 (5/2) rfl (by decide) rfl btcMoves.2.2
  refine ⟨?_, ?_, ?_⟩
  · rw [h0]
    simp only [btcCond]
    norm_num
  · rw [h1]
    simp only [btcCond]
    norm_num
  · rw [h2]
    simp only [btcCond]
    norm_num

/-- C1 amended: the breaker guard lives in the bootstrap's entry-signal
handler, not in `TradeExecutor`: when `isActive()` is false at
signal-handling time, the handler returns before invoking `executeTrade`,
so no order is submitted on the signal path and the breaker state is
untouched. -/
theorem breaker_blocks_entry_signal (cb : CBState) (activeIds : List String)
    (daily_pnl total_value : ℚ) (strategy : ParsedStrategy)
    (priceTbl : List (String × List PriceData)) (now : ℤ)
    (positions : List Position) (dailyStartValue : ℚ)
    (orderFate : Except String TradeResult) (newId : String)
    (h : cb.isActive = false) :
    handleEntrySignal cb activeIds daily_pnl total_value strategy priceTbl
      now positions dailyStartValue orderFate newId = (cb, [], none) := by
  simp [handleEntrySignal, h]

/-- C1 amended, witness: a tripped breaker makes the handler skip. -/
theorem breaker_blocks_entry_signal_witness :
    handleEntrySignal cbTripped [] 0 1 c1Strategy c1Tbl 1000 [] 0 c1Fate "p1" =
      (cbTripped, [], none) :=
  breaker_blocks_entry_signal cbTripped [] 0 1 c1Strategy c1Tbl 1000 [] 0
    c1Fate "p1" rfl

/-- C1 counterexample: with the circuit breaker tripped (`isActive()`
false), a direct `executeTrade` invocation that passes the pre-trade
checks still submits an order and creates a position — `executeTrade`
and `validatePreTrade` consult no circuit-breaker state, so the tripped
breaker does not cause the trade to be rejected. -/
theorem executeTrade_ignores_tripped_breaker :
    CBState.isActive cbTripped = false ∧
    (executeTrade c1Strategy c1Tbl 1000 [] 0 c1Fate "p1" "enter").ordersSubmitted.length = 1 ∧
    (executeTrade c1Strategy c1Tbl 1000 [] 0 c1Fate "p1" "enter").positionCreated.isSome = true ∧
    (executeTrade c1Strategy c1Tbl 1000 [] 0 c1Fate "p1" "enter").outcome = .ok () := by
  have hval : validatePreTrade c1Strategy c1Tbl 1000 [] 0 = .ok () := by
    simp [validatePreTrade, c1Strategy, invalidStopMod, assetChecks, c1Tbl,
      isDataFresh, getSpread, lookupHistory, getOpenPositions, getDailyPnL]
    norm_num
  have hexec : ∃ pos, executeTrade c1Strategy c1Tbl 1000 [] 0 c1Fate "p1" "enter" =
      { ordersSubmitted :=
          [{ side := "buy"
             product_id := "BTC-USD"
             orderType := "limit"
             price := some 100
             size := some 1 }]
        positionCreated := some pos
        outcome := .ok () } := by
    refine ⟨{ id := "p1"
              strategy_id := "s1"
              asset := "BTC-USD"
              side := PSide.buy
              entry_price := 100
              current_price := 100
              quantity := 1
              trailing_stop_price := 98
              take_profit_price := 105
              status := PStatus.openP
              entry_time := 1000
              exit_time := none
              exit_price := none
              pnl := none }, ?_⟩
    simp only [executeTrade, hval]
    simp [c1Strategy, c1Tbl, c1Fate, lookupHistory, getCurrentPrice,
      calculateStopLoss, calculateTakeProfit, roundTo]
    rw [if_pos (by decide : (PSide.buy == PSide.buy) = true),
      if_pos (by decide : (PSide.buy == PSide.buy) = true)]
    norm_num
  obtain ⟨pos, hpos⟩ := hexec
  refine ⟨rfl, ?_, ?_, ?_⟩ <;> simp [hpos]

/-- C6 (code bug): with 5 open positions of which 2 close attempts fail,
`emergencyCloseAll` does attempt all 5 closes, but the summary it emits
reports `failures = 0`, not 2: `closePosition` swallows its own failure
(alert + 5 s re-schedule, no rethrow) and the mapped `.catch` resolves,
so `Promise.allSettled` never sees a rejection. -/
theorem emergencyCloseAll_reports_zero_failures :
    (emergencyCloseAll ecPositions 0 ecFate).1 = 5 ∧
    ((getOpenPositions ecPositions).map fun p => (ecFate p).isFailure).count true = 2 ∧
    (emergencyCloseAll ecPositions 0 ecFate).2.total_positions = 5 ∧
    (emergencyCloseAll ecPositions 0 ecFate).2.failures = 0 := by
  refine ⟨by decide, by decide, by decide, by decide⟩

/-- A failing `closePosition` attempt leaves the position untouched,
sends the CRITICAL alert and schedules the 5-second retry, and its
promise fulfills. -/
theorem closePositionOnce_failure (pos : Position) (now : ℤ) (fate : CloseFate)
    (hf : fate.isFailure = true) :
    closePositionOnce pos now fate =
      { position := pos,
        effects := [CloseEffect.alertCloseFailure pos.asset,
          CloseEffect.retryScheduled 5000],
        succeeded := false, promise := SettledOutcome.fulfilled } := by
  cases fate with
  | noPrice => rfl
  | orderFail m => rfl
  | filled p => simp [CloseFate.isFailure] at hf

/-- Running a prefix of failing attempts: the position passes through
unchanged and the per-failure effect pairs accumulate in front of
whatever the remaining attempts produce. -/
theorem closeLoop_fail_prefix (pos : Position) (now : ℤ)
    (fates rest : List CloseFate)
    (hfail : ∀ f ∈ fates, f.isFailure = true) :
    closeLoop pos now (fates ++ rest) =
      ((closeLoop pos now rest).1,
       (List.replicate fates.length
         [CloseEffect.alertCloseFailure pos.asset,
          CloseEffect.retryScheduled 5000]).flatten
         ++ (closeLoop pos now rest).2) := by
  induction fates with
  | nil => simp
  | cons f fs ih =>
    have hf : f.isFailure = true := hfail f (by simp)
    have hfs : ∀ g ∈ fs, g.isFailure = true := fun g hg => hfail g (by simp [hg])
    rw [List.cons_append]
    simp only [closeLoop, closePositionOnce_failure pos now f hf]
    rw [ih hfs]
    simp [List.replicate_succ]

/-- C8: when `closePosition` fails (no current price, or order submission
fails after its retries) the position is not abandoned: across any run of
failing attempts the position stays exactly as it was (still open), each
failure sends one alert and schedules the next attempt 5000 ms later, and
the first successful attempt closes the position. -/
theorem closePosition_retry_until_success (pos : Position) (now : ℤ)
    (fates : List CloseFate) (p : ℚ)
    (hopen : pos.status = PStatus.openP)
    (hfail : ∀ f ∈ fates, f.isFailure = true) :
    (closeLoop pos now fates).1 = pos ∧
    (closeLoop pos now fates).1.status = PStatus.openP ∧
    (closeLoop pos now fates).2 =
      (List.replicate fates.length
        [CloseEffect.alertCloseFailure pos.asset,
         CloseEffect.retryScheduled 5000]).flatten ∧
    (closeLoop pos now (fates ++ [CloseFate.filled p])).1.status =
      PStatus.closedP ∧
    (closeLoop pos now (fates ++ [CloseFate.filled p])).2 =
      (List.replicate fates.length
        [CloseEffect.alertCloseFailure pos.asset,
         CloseEffect.retryScheduled 5000]).flatten
        ++ [CloseEffect.positionSaved, CloseEffect.tradeNotification] := by
  have h1 := closeLoop_fail_prefix pos now fates [] hfail
  have h2 := closeLoop_fail_prefix pos now fates [CloseFate.filled p] hfail
  simp only [List.append_nil] at h1
  refine ⟨?_, ?_, ?_, ?_, ?_⟩
  · rw [h1]
    simp [closeLoop]
  · rw [h1]
    simp [closeLoop, hopen]
  · rw [h1]
    simp [closeLoop]
  · rw [h2]
    simp [closeLoop, closePositionOnce]
  · rw [h2]
    simp [closeLoop, closePositionOnce]

/-- C8 witness: two failing attempts (order failure, then missing price)
leave the position open with two alert/retry pairs; a following fill at
99 closes it. -/
theorem closePosition_retry_until_success_witness :
    (closeLoop cpPos 0 [CloseFate.orderFail "x", CloseFate.noPrice]).1 = cpPos ∧
    (closeLoop cpPos 0 [CloseFate.orderFail "x", CloseFate.noPrice]).2 =
      [CloseEffect.alertCloseFailure "BTC-USD", CloseEffect.retryScheduled 5000,
       CloseEffect.alertCloseFailure "BTC-USD", CloseEffect.retryScheduled 5000] ∧
    (closeLoop cpPos 0 [CloseFate.orderFail "x", CloseFate.noPrice,
      CloseFate.filled 99]).1.status = PStatus.closedP := by
  have h := closePosition_retry_until_success cpPos 0
    [CloseFate.orderFail "x", CloseFate.noPrice] 99 (by decide) (by decide)
  refine ⟨h.1, ?_, h.2.2.2.1⟩
  rw [h.2.2.1]
  decide
